import Mathlib

/-!
Shallow embedding of the concurrent log-streaming core of ice-kube
(src/logs.rs, src/util.rs), together with theorems checking the
natural-language specification against it.

The external collaborators (the kube cluster client, the `regex` crate's
matcher, the random number generator, the terminal) are parameters of the
embedding:
* `isMatch : String → Bool` stands for `re.is_match` of the compiled
  highlight regex (the regex crate's *search* semantics, unanchored);
* `compiles : String → Bool` stands for whether `Regex::new(pattern)`
  succeeds;
* the random draw of `get_color` is a rational number in `[0, len)`;
* a pod's log stream is a list of items, each either a decoded line or an
  error (I/O error from `try_next`, or a UTF-8 decode failure).
-/

namespace IceKube

/-- Substring containment, modelling Rust `str::contains` with a string
pattern (`line_str.contains("ERROR")` in `stream_logs`). -/
def strContains (s pat : String) : Bool := decide (pat.toList <:+: s.toList)

/-- Rust `OptionEx::to_str` from src/util.rs: the contained string, or `""`
for `None`. -/
def to_str : Option String → String
  | some s => s
  | none => ""

/-- Crossterm colors as used by logs.rs: the palette RGB values plus the
named colors `Red` and `Yellow` used for error / highlight styling. -/
inductive Color
  | rgb (r g b : Nat)
  | red
  | yellow
deriving DecidableEq, Repr

/-- The fixed palette `COLORS` of src/logs.rs (lines 31-70). -/
def COLORS : List Color :=
  [.rgb 0 255 0, .rgb 128 128 0, .rgb 0 255 255, .rgb 255 192 203,
   .rgb 245 120 250, .rgb 221 160 221, .rgb 154 205 50, .rgb 230 230 120]

/-- Model of `get_color` (src/logs.rs lines 72-80): draws `rng.gen_range(0.0,
COLORS.len() as f32)`, truncates it with `as usize`, and indexes the
palette.  The draw is modelled as a rational `x`; `as usize` on a
non-negative value truncates toward zero, i.e. takes the floor.  The
result is an `Option` so that an out-of-bounds index (a Rust panic) is
visible as `none`. -/
def get_color (x : ℚ) : Option Color := COLORS[(⌊x⌋).toNat]?

/-- A render category of a line, as the spec's Line Classifier names them. -/
inductive Category
  | Error
  | Highlighted
  | Plain
deriving DecidableEq, Repr

/-- The per-line decision of `stream_logs` (src/logs.rs lines 203-244):
`none` means the line is suppressed (filter mode, no match); otherwise the
branch taken.  `filter` is the filter-only flag, `highlight` the raw
pattern string (empty when absent), `isMatch` the compiled regex's
`is_match`. -/
def classifyLine (filter : Bool) (highlight : String) (isMatch : String → Bool)
    (line_str : String) : Option Category :=
  if filter then
    if !highlight.isEmpty && isMatch line_str then some .Highlighted else none
  else if strContains line_str "ERROR" || strContains line_str "error"
      || strContains line_str "Error" then some .Error
  else if !highlight.isEmpty && isMatch line_str then some .Highlighted
  else some .Plain

/-- A render instruction: the source label printed before the text
(`none` in filter mode, where no pod label is printed), the category, and
the line text. -/
structure RenderInstruction where
  source : Option (String × Color)
  category : Category
  text : String
deriving DecidableEq, Repr

/-- The render instructions produced for one pulled line: none when the
line is suppressed, exactly one otherwise.  In filter mode the emitted
instruction carries no source label; in normal mode it carries the pod
name and the tailer's color. -/
def lineInstructions (filter : Bool) (highlight : String) (isMatch : String → Bool)
    (pod_name : String) (c : Color) (line_str : String) : List RenderInstruction :=
  match classifyLine filter highlight isMatch line_str with
  | none => []
  | some cat =>
      [{ source := if filter then none else some (pod_name, c),
         category := cat, text := line_str }]

/-- One terminal command, as queued by `execute!` / `println!`. -/
inductive TermCmd
  | setForeground (c : Color)
  | setBold
  | print (s : String)
  | resetColor
  | newline
deriving DecidableEq, Repr

/-- The terminal statements one render instruction turns into
(src/logs.rs lines 203-244).  Each inner list is one `execute!` or
`println!` statement; consecutive statements hold no lock in common, so
they are separate units of output.  Filter mode: bold yellow text then a
newline, no label.  Normal mode: the pod label in the tailer's color,
then the category-styled text, then a newline. -/
def renderInstr : RenderInstruction → List (List TermCmd)
  | { source := none, category := _, text := t } =>
      [[.setForeground .yellow, .setBold, .print t, .resetColor], [.newline]]
  | { source := some (pod, c), category := cat, text := t } =>
      [[.setForeground c, .print pod, .print " "]] ++
      (match cat with
       | .Error => [[.setForeground .red, .setBold, .print t, .resetColor]]
       | .Highlighted => [[.setForeground .yellow, .setBold, .print t, .resetColor]]
       | .Plain => [[.resetColor, .print t]]) ++
      [[.newline]]

/-- All terminal statements written for one pulled line. -/
def renderLine (filter : Bool) (highlight : String) (isMatch : String → Bool)
    (pod_name : String) (c : Color) (line_str : String) : List (List TermCmd) :=
  (lineInstructions filter highlight isMatch pod_name c line_str).flatMap renderInstr

/-- One item yielded by a pod's log stream: a successfully decoded line,
or an error (`try_next` returning `Err`, or a UTF-8 decode failure). -/
inductive StreamItem
  | line (s : String)
  | err
deriving DecidableEq, Repr

/-- The lines actually pulled from a stream by the `while let` loop of
`stream_logs`: every line before the first error. -/
def pulledLines : List StreamItem → List String
  | [] => []
  | .line s :: rest => s :: pulledLines rest
  | .err :: _ => []

/-- All line texts a stream carries (ignoring where errors sit). -/
def lineTexts : List StreamItem → List String
  | [] => []
  | .line s :: rest => s :: lineTexts rest
  | .err :: rest => lineTexts rest

/-- How the `while let` loop terminates: `Ended` when the stream closes,
`Failed` when `try_next` errors or a line fails to decode. -/
inductive TailerEnd
  | Ended
  | Failed
deriving DecidableEq, Repr

/-- The render instructions a tailer emits over its whole stream, in
order, stopping at the first error. -/
def tailerInstructions (filter : Bool) (highlight : String) (isMatch : String → Bool)
    (pod_name : String) (c : Color) : List StreamItem → List RenderInstruction
  | [] => []
  | .line s :: rest =>
      lineInstructions filter highlight isMatch pod_name c s ++
        tailerInstructions filter highlight isMatch pod_name c rest
  | .err :: _ => []

/-- The terminal statements the loop of `stream_logs` writes, in order,
stopping at the first error. -/
def runStatements (filter : Bool) (highlight : String) (isMatch : String → Bool)
    (pod_name : String) (c : Color) : List StreamItem → List (List TermCmd)
  | [] => []
  | .line s :: rest =>
      renderLine filter highlight isMatch pod_name c s ++
        runStatements filter highlight isMatch pod_name c rest
  | .err :: _ => []

/-- The terminal state the loop reaches. -/
def runEnd : List StreamItem → TailerEnd
  | [] => .Ended
  | .line _ :: rest => runEnd rest
  | .err :: _ => .Failed

/-- A tailer's overall outcome.  `panicked` models the
`Regex::new(&highlight).unwrap()` panic on an invalid pattern at
src/logs.rs line 199 — inside the tailer, before its line loop. -/
inductive TailerOutcome
  | panicked
  | finished (output : List (List TermCmd)) (e : TailerEnd)
deriving DecidableEq, Repr

/-- Model of `stream_logs` (src/logs.rs lines 176-248): compiles the highlight
regex (panicking if invalid), writes an initial `ResetColor`, then runs
the line loop. -/
def stream_logs (compiles : String → Bool) (isMatch : String → Bool)
    (pod_name : String) (c : Color) (highlight : String) (filter : Bool)
    (stream : List StreamItem) : TailerOutcome :=
  if compiles highlight then
    .finished ([[.resetColor]] ++ runStatements filter highlight isMatch pod_name c stream)
      (runEnd stream)
  else .panicked

/-- The result of a `follow_logs` run (src/logs.rs lines 82-100):
which pods got a tailer task spawned, each task's outcome (all awaited by
`join_all`, in spawn order), and the `Result` the function returns —
`join_all`'s per-task results are discarded, so `ok` is `true`. -/
structure FollowRun where
  spawned : List String
  outcomes : List TailerOutcome
  ok : Bool
deriving Repr

/-- Model of `follow_logs` after pod selection: for each pod it draws a color,
spawns `stream_logs` as a task, then `join_all`s every task and returns
`Ok(())`.  `colors` gives the color `get_color` drew for each pod;
`streams` gives each pod's log stream. -/
def follow_logs (compiles : String → Bool) (isMatch : String → Bool)
    (colors : String → Color) (streams : String → List StreamItem)
    (highlight : Option String) (filter : Bool) (pods : List String) : FollowRun :=
  { spawned := pods
    outcomes := pods.map fun p =>
      stream_logs compiles isMatch p (colors p) (to_str highlight) filter (streams p)
    ok := true }

/-- The matching loop of `collect_pods` (src/logs.rs lines 161-171):
pushes each listed pod name the compiled pattern's `is_match` accepts. -/
def collect_pods (isMatch : String → Bool) (podNames : List String) : List String :=
  podNames.foldl (fun acc name => if isMatch name then acc ++ [name] else acc) []

/-- An interleaved schedule of two tailers' atomic write statements: the
tokio runtime may run the two tasks' statements in any order that
preserves each task's own program order.  (Each statement is treated as
atomic — coarser than reality, where even one `execute!` takes and
releases the stdout lock several times.) -/
inductive Interleaving : List (List TermCmd) → List (List TermCmd) → List (List TermCmd) → Prop
  | nil : Interleaving [] [] []
  | left {x xs ys zs} : Interleaving xs ys zs → Interleaving (x :: xs) ys (x :: zs)
  | right {y xs ys zs} : Interleaving xs ys zs → Interleaving xs (y :: ys) (y :: zs)

/-! ## Helper lemmas -/

/-- In normal (non-filter) mode the classifier never suppresses: the
if-chain of `stream_logs` always takes one of the three rendering
branches. -/
lemma classifyLine_false_isSome (h : String) (m : String → Bool) (s : String) :
    ∃ cat, classifyLine false h m s = some cat := by
  unfold classifyLine
  simp only [Bool.false_eq_true, if_false]
  split
  · exact ⟨_, rfl⟩
  · split
    · exact ⟨_, rfl⟩
    · exact ⟨_, rfl⟩

/-- In normal mode every line yields exactly one instruction, labelled
with the pod name and the tailer's color. -/
lemma lineInstructions_false (h : String) (m : String → Bool) (pod : String)
    (c : Color) (s : String) :
    ∃ cat, lineInstructions false h m pod c s =
      [{ source := some (pod, c), category := cat, text := s }] := by
  obtain ⟨cat, hc⟩ := classifyLine_false_isSome h m s
  refine ⟨cat, ?_⟩
  unfold lineInstructions
  rw [hc]
  simp

/-- The push loop of `collect_pods` is a filter of the listed names. -/
lemma collect_pods_eq_filter (isMatch : String → Bool) (podNames : List String) :
    collect_pods isMatch podNames = podNames.filter isMatch := by
  have key : ∀ (l : List String) (acc : List String),
      l.foldl (fun acc name => if isMatch name then acc ++ [name] else acc) acc =
        acc ++ l.filter isMatch := by
    intro l
    induction l with
    | nil => intro acc; simp
    | cons a t ih =>
      intro acc
      by_cases ha : isMatch a
      · simp [List.foldl_cons, ha, ih, List.filter_cons]
      · simp [List.foldl_cons, ha, ih, List.filter_cons]
  simpa using key podNames []

/-- A stream without errors gets every one of its lines pulled, and the
loop reaches `Ended`. -/
lemma no_err_pulls_all (st : List StreamItem) (he : StreamItem.err ∉ st) :
    pulledLines st = lineTexts st ∧ runEnd st = .Ended := by
  induction st with
  | nil => exact ⟨rfl, rfl⟩
  | cons i rest ih =>
    cases i with
    | line s =>
      have hrest : StreamItem.err ∉ rest := fun hm => he (List.mem_cons_of_mem _ hm)
      obtain ⟨h1, h2⟩ := ih hrest
      exact ⟨by simp [pulledLines, lineTexts, h1], by simp [runEnd, h2]⟩
    | err => exact absurd (List.mem_cons_self _ _) he

/-- An interleaved schedule preserves each tailer's own statement order:
each side is a subsequence of the schedule. -/
lemma Interleaving.sublists {xs ys zs : List (List TermCmd)}
    (h : Interleaving xs ys zs) : xs.Sublist zs ∧ ys.Sublist zs := by
  induction h with
  | nil => exact ⟨List.Sublist.refl _, List.Sublist.refl _⟩
  | left _ ih => exact ⟨ih.1.cons₂ _, ih.2.cons _⟩
  | right _ ih => exact ⟨ih.1.cons _, ih.2.cons₂ _⟩

/-! ## Claims -/

/-- C2: in normal (non-filter) mode, a line containing any of the
case-sensitive substrings "ERROR", "error", "Error" classifies as `Error`,
and never as `Highlighted`, whatever the highlight pattern and matcher —
error takes precedence over a highlight match. -/
theorem c2_error_beats_highlight (h : String) (m : String → Bool) (s : String)
    (he : strContains s "ERROR" = true ∨ strContains s "error" = true ∨
      strContains s "Error" = true) :
    classifyLine false h m s = some .Error ∧
      classifyLine false h m s ≠ some .Highlighted := by
  have hcond : (strContains s "ERROR" || strContains s "error"
      || strContains s "Error") = true := by
    rcases he with h1 | h1 | h1 <;> simp [h1]
  have : classifyLine false h m s = some .Error := by
    unfold classifyLine
    simp [hcond]
  exact ⟨this, by simp [this]⟩

/-- Witness for C2, on the spec's own example: the line
"2024 error: pattern-xyz seen" both contains "error" and matches the
highlight pattern "pattern-xyz", and classifies as `Error`. -/
theorem c2_error_beats_highlight_witness :
    strContains "2024 error: pattern-xyz seen" "pattern-xyz" = true ∧
    classifyLine false "pattern-xyz" (fun t => strContains t "pattern-xyz")
      "2024 error: pattern-xyz seen" = some .Error :=
  ⟨by decide,
    (c2_error_beats_highlight "pattern-xyz" (fun t => strContains t "pattern-xyz")
      "2024 error: pattern-xyz seen" (Or.inr (Or.inl (by decide)))).1⟩

/-- C3: in filter-only mode a line is emitted (as exactly one
`Highlighted` instruction, with no label) iff the highlight pattern is
active (non-empty) and the line matches; otherwise nothing at all is
written for it. -/
theorem c3_filter_only_emits_matches (h : String) (m : String → Bool)
    (pod : String) (c : Color) (s : String) :
    (h.isEmpty = false → m s = true →
      lineInstructions true h m pod c s =
        [{ source := none, category := .Highlighted, text := s }]) ∧
    (h.isEmpty = true ∨ m s = false →
      lineInstructions true h m pod c s = [] ∧
      renderLine true h m pod c s = []) := by
  constructor
  · intro hne hm
    unfold lineInstructions classifyLine
    simp [hne, hm]
  · intro hsup
    have hcl : classifyLine true h m s = none := by
      unfold classifyLine
      rcases hsup with h1 | h1 <;> simp [h1]
    constructor
    · unfold lineInstructions; rw [hcl]
    · unfold renderLine lineInstructions; rw [hcl]; rfl

/-- Witness for C3, on the spec's example: with pattern "boot", the
non-matching line "starting service" produces no instruction and no
output, and "boot sequence complete" produces exactly one `Highlighted`
instruction. -/
theorem c3_filter_only_emits_matches_witness :
    lineInstructions true "boot" (fun t => strContains t "boot") "p"
      (.rgb 0 255 0) "starting service" = [] ∧
    renderLine true "boot" (fun t => strContains t "boot") "p"
      (.rgb 0 255 0) "starting service" = [] ∧
    lineInstructions true "boot" (fun t => strContains t "boot") "p"
      (.rgb 0 255 0) "boot sequence complete" =
      [{ source := none, category := .Highlighted, text := "boot sequence complete" }] :=
  ⟨((c3_filter_only_emits_matches "boot" (fun t => strContains t "boot") "p"
      (.rgb 0 255 0) "starting service").2 (Or.inr (by decide))).1,
   ((c3_filter_only_emits_matches "boot" (fun t => strContains t "boot") "p"
      (.rgb 0 255 0) "starting service").2 (Or.inr (by decide))).2,
   (c3_filter_only_emits_matches "boot" (fun t => strContains t "boot") "p"
      (.rgb 0 255 0) "boot sequence complete").1 (by decide) (by decide)⟩

/-- C6: with an empty (or absent, via `to_str`) highlight pattern no line
is ever classified `Highlighted`, in either mode: an empty pattern means
no highlighting, not match-everything. -/
theorem c6_empty_pattern_never_highlights (filter : Bool) (m : String → Bool)
    (s : String) :
    to_str none = "" ∧
    classifyLine filter "" m s ≠ some .Highlighted := by
  refine ⟨rfl, ?_⟩
  unfold classifyLine
  cases filter
  · simp only [Bool.false_eq_true, if_false]
    split
    · simp
    · split <;> simp_all [String.isEmpty]
  · simp [String.isEmpty]

/-- Witness for C6: even with an always-true matcher, the empty pattern
classifies a line as plain in normal mode (never `Highlighted`) and keeps
it suppressed in filter mode. -/
theorem c6_empty_pattern_never_highlights_witness :
    (to_str none = "" ∧
      classifyLine false "" (fun _ => true) "anything" ≠ some .Highlighted) ∧
    classifyLine true "" (fun _ => true) "anything" = none :=
  ⟨c6_empty_pattern_never_highlights false (fun _ => true) "anything",
    by decide⟩

/-- C8: `collect_pods` keeps exactly the listed pod names accepted by the
compiled pattern's `is_match` (the regex crate's unanchored search),
preserving the listing's order. -/
theorem c8_collect_pods_exact_matches (isMatch : String → Bool)
    (podNames : List String) (name : String) :
    collect_pods isMatch podNames = podNames.filter isMatch ∧
    (name ∈ collect_pods isMatch podNames ↔
      name ∈ podNames ∧ isMatch name = true) := by
  refine ⟨collect_pods_eq_filter isMatch podNames, ?_⟩
  rw [collect_pods_eq_filter]
  exact List.mem_filter

/-- Witness for C8: a pod whose name merely contains the pattern (partial
match, no anchoring) is kept, and a non-matching pod is not. -/
theorem c8_collect_pods_exact_matches_witness :
    "web-1-abc" ∈ collect_pods (fun n => strContains n "web") ["web-1-abc", "db-0"] ∧
    ¬ "db-0" ∈ collect_pods (fun n => strContains n "web") ["web-1-abc", "db-0"] :=
  ⟨(c8_collect_pods_exact_matches (fun n => strContains n "web")
      ["web-1-abc", "db-0"] "web-1-abc").2.mpr ⟨by decide, by decide⟩,
   fun hmem => by
    have := (c8_collect_pods_exact_matches (fun n => strContains n "web")
      ["web-1-abc", "db-0"] "db-0").2.mp hmem
    exact absurd this.2 (by decide)⟩

/-- C9: the color draw is always in bounds: for any draw `x` in
`[0, COLORS.len())`, truncation gives an index inside the palette, so
`get_color` succeeds with a palette element, and the palette has at least
8 colors. -/
theorem c9_get_color_total_in_palette (x : ℚ) (h0 : 0 ≤ x)
    (hx : x < (COLORS.length : ℚ)) :
    8 ≤ COLORS.length ∧ ∃ c, get_color x = some c ∧ c ∈ COLORS := by
  have hlen : COLORS.length = 8 := rfl
  have h8 : x < ((8 : ℤ) : ℚ) := by
    rw [hlen] at hx
    exact_mod_cast hx
  have hf8 : ⌊x⌋ < (8 : ℤ) := Int.floor_lt.mpr h8
  have hf0 : (0 : ℤ) ≤ ⌊x⌋ := Int.floor_nonneg.mpr h0
  have hidx : (⌊x⌋).toNat < COLORS.length := by
    rw [hlen]; omega
  exact ⟨by rw [hlen], COLORS[(⌊x⌋).toNat],
    List.getElem?_eq_getElem hidx, List.getElem_mem hidx⟩

/-- Witness for C9: the draw 5 is in range and yields the sixth palette
color. -/
theorem c9_get_color_total_in_palette_witness :
    8 ≤ COLORS.length ∧ ∃ c, get_color 5 = some c ∧ c ∈ COLORS :=
  c9_get_color_total_in_palette 5 (by norm_num) (by norm_num [COLORS])

/-- C1, counterexample: in filter-only mode a pulled line that does not
match the highlight pattern yields no render instruction at all, so it is
not the case that every pulled line yields exactly one instruction: here
two lines are pulled but only one instruction is produced. -/
theorem c1_filter_mode_drops_lines :
    pulledLines [StreamItem.line "starting service",
      StreamItem.line "boot sequence complete"] =
      ["starting service", "boot sequence complete"] ∧
    (tailerInstructions true "boot" (fun t => strContains t "boot") "pod-a"
        (.rgb 0 255 0)
        [StreamItem.line "starting service",
          StreamItem.line "boot sequence complete"]).map
      RenderInstruction.text = ["boot sequence complete"] :=
  ⟨rfl, by decide⟩

/-- C1, amended: in normal (non-filter) mode every line pulled from the
stream yields exactly one render instruction, labelled with the pod name
and the tailer's color, in the order received, with no drops and no
duplication, until the stream ends or errors: the instruction texts are
exactly the pulled lines. -/
theorem c1_normal_mode_lines_in_order (h : String) (m : String → Bool)
    (pod : String) (c : Color) (st : List StreamItem) :
    (tailerInstructions false h m pod c st).map RenderInstruction.text =
      pulledLines st ∧
    ∀ instr ∈ tailerInstructions false h m pod c st,
      instr.source = some (pod, c) := by
  induction st with
  | nil => exact ⟨rfl, by intro instr hi; simp [tailerInstructions] at hi⟩
  | cons i rest ih =>
    cases i with
    | line s =>
      obtain ⟨cat, hl⟩ := lineInstructions_false h m pod c s
      constructor
      · simp only [tailerInstructions, pulledLines, hl, List.map_append]
        simp [ih.1]
      · intro instr hi
        simp only [tailerInstructions, hl] at hi
        rcases List.mem_append.mp hi with h1 | h1
        · rw [List.mem_singleton.mp h1]
        · exact ih.2 instr h1
    | err => exact ⟨rfl, by intro instr hi; simp [tailerInstructions] at hi⟩

/-- Witness for C1's amended theorem, on a numbered sequence truncated by
an error: the two lines pulled before the error come out as instruction
texts in that order, and a concrete emitted instruction carries the pod
label. -/
theorem c1_normal_mode_lines_in_order_witness :
    (tailerInstructions false "" (fun _ => false) "w" (Color.rgb 0 255 0)
      [StreamItem.line "l1", StreamItem.line "l2", StreamItem.err,
        StreamItem.line "l3"]).map RenderInstruction.text =
      pulledLines [StreamItem.line "l1", StreamItem.line "l2", StreamItem.err,
        StreamItem.line "l3"] ∧
    pulledLines [StreamItem.line "l1", StreamItem.line "l2", StreamItem.err,
      StreamItem.line "l3"] = ["l1", "l2"] ∧
    ({ source := some ("w", Color.rgb 0 255 0), category := .Plain,
        text := "l1" } : RenderInstruction).source =
      some ("w", Color.rgb 0 255 0) := by
  have hm := c1_normal_mode_lines_in_order "" (fun _ => false) "w"
    (Color.rgb 0 255 0)
    [StreamItem.line "l1", StreamItem.line "l2", StreamItem.err,
      StreamItem.line "l3"]
  exact ⟨hm.1, by decide, hm.2 _ (by decide)⟩

/-- C4: the fan-out run returns `Ok` whatever each tailer did, its
outcome list has one entry per spawned pod — each the full, independent
run of that pod's own stream, unaffected by any sibling's failure — and a
tailer whose stream never errors (given a valid pattern) pulls every one
of its lines, writes all their statements, and reaches `Ended`. -/
theorem c4_fanout_awaits_all_and_tolerates_failure
    (compiles isMatch : String → Bool) (colors : String → Color)
    (streams : String → List StreamItem) (h : Option String) (filter : Bool)
    (pods : List String) :
    (follow_logs compiles isMatch colors streams h filter pods).ok = true ∧
    (follow_logs compiles isMatch colors streams h filter pods).outcomes =
      pods.map (fun p =>
        stream_logs compiles isMatch p (colors p) (to_str h) filter (streams p)) ∧
    (∀ p, compiles (to_str h) = true → StreamItem.err ∉ streams p →
      stream_logs compiles isMatch p (colors p) (to_str h) filter (streams p) =
        .finished ([[.resetColor]] ++
          runStatements filter (to_str h) isMatch p (colors p) (streams p))
          .Ended ∧
      pulledLines (streams p) = lineTexts (streams p)) := by
  refine ⟨rfl, rfl, ?_⟩
  intro p hc he
  obtain ⟨h1, h2⟩ := no_err_pulls_all (streams p) he
  exact ⟨by simp [stream_logs, hc, h2], h1⟩

/-- Witness for C4, on the spec's partial-failure scenario: three
tailers, pod-a's stream errors immediately, yet the run returns `Ok` and
pod-b's tailer still pulls and renders both of its lines and `Ended`s. -/
theorem c4_fanout_awaits_all_and_tolerates_failure_witness :
    (follow_logs (fun _ => true) (fun _ => false) (fun _ => Color.rgb 0 255 0)
      (fun p => if p = "pod-a" then [StreamItem.err]
        else if p = "pod-b" then [StreamItem.line "b1", StreamItem.line "b2"]
        else [StreamItem.line "c1"]) none false
      ["pod-a", "pod-b", "pod-c"]).ok = true ∧
    stream_logs (fun _ => true) (fun _ => false) "pod-b" (Color.rgb 0 255 0)
      (to_str none) false
      ((fun p => if p = "pod-a" then [StreamItem.err]
        else if p = "pod-b" then [StreamItem.line "b1", StreamItem.line "b2"]
        else [StreamItem.line "c1"]) "pod-b") =
      .finished ([[.resetColor]] ++ runStatements false (to_str none)
        (fun _ => false) "pod-b" (Color.rgb 0 255 0)
        ((fun p => if p = "pod-a" then [StreamItem.err]
          else if p = "pod-b" then [StreamItem.line "b1", StreamItem.line "b2"]
          else [StreamItem.line "c1"]) "pod-b")) .Ended ∧
    lineTexts ((fun p => if p = "pod-a" then [StreamItem.err]
      else if p = "pod-b" then [StreamItem.line "b1", StreamItem.line "b2"]
      else [StreamItem.line "c1"]) "pod-b") = ["b1", "b2"] := by
  have hmain := c4_fanout_awaits_all_and_tolerates_failure (fun _ => true)
    (fun _ => false) (fun _ => Color.rgb 0 255 0)
    (fun p => if p = "pod-a" then [StreamItem.err]
      else if p = "pod-b" then [StreamItem.line "b1", StreamItem.line "b2"]
      else [StreamItem.line "c1"]) none false ["pod-a", "pod-b", "pod-c"]
  exact ⟨hmain.1, (hmain.2.2 "pod-b" rfl (by decide)).1, by decide⟩

/-- C5, counterexample: with an invalid highlight pattern the fan-out
still spawns one tailer per pod — the pattern is never examined before
spawning — and the `Regex::new(..).unwrap()` panic then happens once in
EACH tailer (here twice), not once at setup. -/
theorem c5_invalid_regex_not_checked_at_setup :
    (follow_logs (fun _ => false) (fun _ => true) (fun _ => Color.red)
      (fun _ => []) (some "(") false ["pod-a", "pod-b"]).spawned =
      ["pod-a", "pod-b"] ∧
    (follow_logs (fun _ => false) (fun _ => true) (fun _ => Color.red)
      (fun _ => []) (some "(") false ["pod-a", "pod-b"]).outcomes =
      [.panicked, .panicked] :=
  ⟨rfl, rfl⟩

/-- C5, amended: an invalid highlight regex is not a setup-time check:
`follow_logs` spawns every tailer regardless, each spawned tailer
independently panics when it compiles the pattern (after spawn, before
reading any line), and the overall run still returns `Ok`. -/
theorem c5_invalid_regex_panics_each_tailer (compiles isMatch : String → Bool)
    (colors : String → Color) (streams : String → List StreamItem)
    (h : Option String) (filter : Bool) (pods : List String)
    (hc : compiles (to_str h) = false) :
    (follow_logs compiles isMatch colors streams h filter pods).spawned = pods ∧
    (follow_logs compiles isMatch colors streams h filter pods).outcomes =
      pods.map (fun _ => .panicked) ∧
    (follow_logs compiles isMatch colors streams h filter pods).ok = true := by
  refine ⟨rfl, ?_, rfl⟩
  simp [follow_logs, stream_logs, hc]

/-- Witness for C5's amended theorem: two pods, a pattern that fails to
compile: both tailers panic and the run returns `Ok`. -/
theorem c5_invalid_regex_panics_each_tailer_witness :
    (follow_logs (fun _ => false) (fun _ => true) (fun _ => Color.yellow)
      (fun _ => [StreamItem.line "x"]) (some "[") true ["p", "q"]).outcomes =
      [.panicked, .panicked] ∧
    (follow_logs (fun _ => false) (fun _ => true) (fun _ => Color.yellow)
      (fun _ => [StreamItem.line "x"]) (some "[") true ["p", "q"]).ok = true := by
  have hm := c5_invalid_regex_panics_each_tailer (fun _ => false) (fun _ => true)
    (fun _ => Color.yellow) (fun _ => [StreamItem.line "x"]) (some "[") true
    ["p", "q"] rfl
  exact ⟨by rw [hm.2.1]; rfl, hm.2.2⟩

/-- C10: in filter-only mode an emitted line is written as bold yellow
text and a newline only — no pod-name label, no per-source color — while
in normal mode every rendered line starts with the pod name printed in
the tailer's assigned color. -/
theorem c10_filter_mode_unlabelled_yellow (h : String) (m : String → Bool)
    (pod : String) (c : Color) (s : String) :
    (h.isEmpty = false → m s = true →
      renderLine true h m pod c s =
        [[.setForeground .yellow, .setBold, .print s, .resetColor],
          [.newline]]) ∧
    (∃ rest, renderLine false h m pod c s =
      [.setForeground c, .print pod, .print " "] :: rest) := by
  constructor
  · intro hne hm
    unfold renderLine lineInstructions classifyLine
    simp [hne, hm, renderInstr]
  · obtain ⟨cat, hl⟩ := lineInstructions_false h m pod c s
    unfold renderLine
    rw [hl]
    cases cat <;> exact ⟨_, rfl⟩

/-- Witness for C10: a matching line in filter mode is exactly bold
yellow text plus newline; a normal-mode line (here a plain one) starts
with the pod label in the tailer's color. -/
theorem c10_filter_mode_unlabelled_yellow_witness :
    renderLine true "boot" (fun t => strContains t "boot") "pod-z"
      (.rgb 154 205 50) "boot ok" =
      [[.setForeground .yellow, .setBold, .print "boot ok", .resetColor],
        [.newline]] ∧
    ∃ rest, renderLine false "boot" (fun t => strContains t "boot") "pod-z"
      (.rgb 154 205 50) "hello" =
      [.setForeground (.rgb 154 205 50), .print "pod-z", .print " "] :: rest :=
  ⟨(c10_filter_mode_unlabelled_yellow "boot" (fun t => strContains t "boot")
      "pod-z" (.rgb 154 205 50) "boot ok").1 (by decide) (by decide),
   (c10_filter_mode_unlabelled_yellow "boot" (fun t => strContains t "boot")
      "pod-z" (.rgb 154 205 50) "hello").2⟩

/-- Concrete schedule data for the write-interleaving analysis: the four
statements tailer a writes for its line "L1". -/
def schedA : List (List TermCmd) :=
  [[.resetColor],
   [.setForeground (.rgb 0 255 0), .print "a", .print " "],
   [.resetColor, .print "L1"],
   [.newline]]

/-- The four statements tailer b writes for its line "M1". -/
def schedB : List (List TermCmd) :=
  [[.resetColor],
   [.setForeground (.rgb 128 128 0), .print "b", .print " "],
   [.resetColor, .print "M1"],
   [.newline]]

/-- A schedule where tailer b's whole output lands between tailer a's
label statement and a's text statement. -/
def schedZ : List (List TermCmd) :=
  [[.resetColor],
   [.setForeground (.rgb 0 255 0), .print "a", .print " "],
   [.resetColor],
   [.setForeground (.rgb 128 128 0), .print "b", .print " "],
   [.resetColor, .print "M1"],
   [.newline],
   [.resetColor, .print "L1"],
   [.newline]]

/-- The concrete interleaving behind the C7 analysis. -/
lemma interleaving_schedZ : Interleaving schedA schedB schedZ := by
  unfold schedA schedB schedZ
  exact .left (.left (.right (.right (.right (.right (.left (.left .nil)))))))

/-- C7, counterexample: one instruction's output is NOT written as one
atomic unit.  A tailer writes an instruction as several separate
unsynchronized stdout statements, so a legal schedule of two concurrent
tailers can put tailer b's whole output between tailer a's pod label and
a's line text: a's instruction block is not contiguous in the schedule. -/
theorem c7_instruction_can_be_split :
    [[.resetColor]] ++ runStatements false "" (fun _ => false) "a"
      (.rgb 0 255 0) [.line "L1"] = schedA ∧
    [[.resetColor]] ++ runStatements false "" (fun _ => false) "b"
      (.rgb 128 128 0) [.line "M1"] = schedB ∧
    Interleaving schedA schedB schedZ ∧
    ¬ renderLine false "" (fun _ => false) "a" (.rgb 0 255 0) "L1" <:+: schedZ :=
  ⟨by decide, by decide, interleaving_schedZ, by decide⟩

/-- C7, amended: there is no instruction-level lock — only each write
statement is atomic — so the guarantee that actually holds is that any
interleaved schedule preserves each tailer's own statement order (each
tailer's output is a subsequence of the schedule), while one
instruction's statements may be separated by the other tailer's. -/
theorem c7_tailer_order_preserved_only (filter : Bool) (h : String)
    (m : String → Bool) (p1 p2 : String) (c1 c2 : Color)
    (s1 s2 : List StreamItem) (zs : List (List TermCmd))
    (hil : Interleaving
      ([[.resetColor]] ++ runStatements filter h m p1 c1 s1)
      ([[.resetColor]] ++ runStatements filter h m p2 c2 s2) zs) :
    ([[TermCmd.resetColor]] ++ runStatements filter h m p1 c1 s1).Sublist zs ∧
    ([[TermCmd.resetColor]] ++ runStatements filter h m p2 c2 s2).Sublist zs :=
  hil.sublists

/-- Witness for C7's amended theorem, at the concrete schedule: both
tailers' outputs are subsequences of it. -/
theorem c7_tailer_order_preserved_only_witness :
    schedA.Sublist schedZ ∧ schedB.Sublist schedZ := by
  have hA : [[.resetColor]] ++ runStatements false "" (fun _ => false) "a"
      (.rgb 0 255 0) [.line "L1"] = schedA := by decide
  have hB : [[.resetColor]] ++ runStatements false "" (fun _ => false) "b"
      (.rgb 128 128 0) [.line "M1"] = schedB := by decide
  have hil : Interleaving
      ([[.resetColor]] ++ runStatements false "" (fun _ => false) "a"
        (.rgb 0 255 0) [.line "L1"])
      ([[.resetColor]] ++ runStatements false "" (fun _ => false) "b"
        (.rgb 128 128 0) [.line "M1"]) schedZ := by
    rw [hA, hB]; exact interleaving_schedZ
  have hres := c7_tailer_order_preserved_only false "" (fun _ => false) "a" "b"
    (Color.rgb 0 255 0) (Color.rgb 128 128 0) [StreamItem.line "L1"]
    [StreamItem.line "M1"] schedZ hil
  exact ⟨by rw [← hA]; exact hres.1, by rw [← hB]; exact hres.2⟩

end IceKube
